import Mathlib

/-!
Verification of the VeraSeal "seal pipeline" core against its specification.

The development shallowly embeds the Python source under `src/app/`:

* `app/schemas/evaluation.py` — canonical JSON serialization (`canonicalize_json`),
  SHA-256 (`compute_sha256`), the request/result schemas and their validators;
* `app/invariants/checks.py` — pre/during/post invariant checks;
* `app/core/engine.py` — the evaluation engine (`run_evaluation`, `_evaluate_mvp_rule`);
* `app/policy/__init__.py` — the policy layer (`evaluate_with_policy`);
* `app/audit/store.py` — the append-only artifact store and deterministic bundle;
* `app/replay/replay.py` — the replay engine.

JSON values are modelled by an inductive `Json` type. Numbers are modelled as
integers: the specification's own "Open questions" section ties float rendering
to the host JSON encoder, and no claim under verification involves non-integer
numbers. Python strings are modelled as Lean `String` (sequences of Unicode
scalar values, compared by code point exactly as Python compares `str`).
Machine-level details that cannot influence any claim (lone surrogates, the
exact DEFLATE byte stream of a ZIP) are outside the model and noted where
they are abstracted.

Python exceptions are modelled with `Except`: a raised exception is an
`Except.error` carrying the exception kind and message. In particular a call
with a keyword argument the callee does not accept raises `TypeError`, which
the model represents faithfully (this turns out to decide two claims about
`replay_evaluation`).
-/

/-- Exception kinds raised by the modelled code: `InvariantViolation` from
`app/invariants/checks.py`, pydantic validation errors from model
construction, and `TypeError` from a call with an unexpected keyword
argument. -/
inductive PyError where
  | invariantViolation (msg : String)
  | validationError (msg : String)
  | typeError (msg : String)
deriving Repr, DecidableEq

/-- JSON values as produced by `json.loads` on the artifact files and as held
in request payloads. Objects are association lists in insertion order, as a
Python `dict` preserves insertion order; numbers are integers (see the module
comment for why floats are out of the model). -/
inductive Json where
  | null
  | bool (b : Bool)
  | int (i : Int)
  | str (s : String)
  | arr (xs : List Json)
  | obj (kvs : List (String × Json))
deriving Repr

mutual

/-- Structural Boolean equality on `Json` (position- and order-sensitive). -/
def beqJson : Json → Json → Bool
  | .null, .null => true
  | .bool x, .bool y => x == y
  | .int x, .int y => x == y
  | .str x, .str y => x == y
  | .arr xs, .arr ys => beqJsonList xs ys
  | .obj l1, .obj l2 => beqJsonPairs l1 l2
  | _, _ => false

/-- Elementwise Boolean equality on JSON arrays. -/
def beqJsonList : List Json → List Json → Bool
  | [], [] => true
  | x :: xs, y :: ys => beqJson x y && beqJsonList xs ys
  | _, _ => false

/-- Elementwise Boolean equality on object item lists. -/
def beqJsonPairs : List (String × Json) → List (String × Json) → Bool
  | [], [] => true
  | (k1, v1) :: t1, (k2, v2) :: t2 => k1 == k2 && beqJson v1 v2 && beqJsonPairs t1 t2
  | _, _ => false

end

mutual

theorem beqJson_iff : ∀ a b : Json, beqJson a b = true ↔ a = b
  | .null, .null => by simp [beqJson]
  | .null, .bool _ | .null, .int _ | .null, .str _ | .null, .arr _ | .null, .obj _ =>
      by simp [beqJson]
  | .bool _, .null | .bool _, .int _ | .bool _, .str _ | .bool _, .arr _ | .bool _, .obj _ =>
      by simp [beqJson]
  | .int _, .null | .int _, .bool _ | .int _, .str _ | .int _, .arr _ | .int _, .obj _ =>
      by simp [beqJson]
  | .str _, .null | .str _, .bool _ | .str _, .int _ | .str _, .arr _ | .str _, .obj _ =>
      by simp [beqJson]
  | .arr _, .null | .arr _, .bool _ | .arr _, .int _ | .arr _, .str _ | .arr _, .obj _ =>
      by simp [beqJson]
  | .obj _, .null | .obj _, .bool _ | .obj _, .int _ | .obj _, .str _ | .obj _, .arr _ =>
      by simp [beqJson]
  | .bool x, .bool y => by simp [beqJson]
  | .int x, .int y => by simp [beqJson]
  | .str x, .str y => by simp [beqJson]
  | .arr xs, .arr ys => by
      simp only [beqJson, beqJsonList_iff xs ys, Json.arr.injEq]
  | .obj l1, .obj l2 => by
      simp only [beqJson, beqJsonPairs_iff l1 l2, Json.obj.injEq]

theorem beqJsonList_iff : ∀ xs ys : List Json, beqJsonList xs ys = true ↔ xs = ys
  | [], [] => by simp [beqJsonList]
  | [], _ :: _ => by simp [beqJsonList]
  | _ :: _, [] => by simp [beqJsonList]
  | x :: xs, y :: ys => by
      simp [beqJsonList, beqJson_iff x y, beqJsonList_iff xs ys]

theorem beqJsonPairs_iff : ∀ l1 l2 : List (String × Json), beqJsonPairs l1 l2 = true ↔ l1 = l2
  | [], [] => by simp [beqJsonPairs]
  | [], _ :: _ => by simp [beqJsonPairs]
  | _ :: _, [] => by simp [beqJsonPairs]
  | (k1, v1) :: t1, (k2, v2) :: t2 => by
      simp [beqJsonPairs, beqJson_iff v1 v2, beqJsonPairs_iff t1 t2, and_assoc]

end

instance : DecidableEq Json := fun a b => decidable_of_iff (beqJson a b = true) (beqJson_iff a b)

/-- First value stored under a key, i.e. Python `dict.get(k)` (a real dict
never holds duplicate keys, so first-match is exact). -/
def dictGet (kvs : List (String × Json)) (k : String) : Option Json :=
  match kvs with
  | [] => none
  | (k2, v) :: rest => if k2 = k then some v else dictGet rest k

/-- Keys of a JSON object in insertion order (`dict.keys()`). -/
def objKeys : Json → List String
  | .obj kvs => kvs.map Prod.fst
  | _ => []

/-- UTF-8 encoding of one scalar value, as a list of byte values. -/
def utf8Char (c : Char) : List Nat :=
  let n := c.toNat
  if n < 128 then [n]
  else if n < 2048 then [192 + n / 64, 128 + n % 64]
  else if n < 65536 then [224 + n / 4096, 128 + n / 64 % 64, 128 + n % 64]
  else [240 + n / 262144, 128 + n / 4096 % 64, 128 + n / 64 % 64, 128 + n % 64]

/-- UTF-8 bytes of a string (`str.encode("utf-8")`). -/
def utf8Bytes (s : String) : List Nat :=
  (s.data.map utf8Char).flatten

/-- Two lowercase hex digits of a byte-sized number, used by the `\u00XX`
escapes below. -/
def hexChar (n : Nat) : Char :=
  if n < 10 then Char.ofNat (48 + n) else Char.ofNat (87 + n)

/-- Escape one character the way `json.dumps(..., ensure_ascii=False)` does:
`"` and `\` get a backslash, the named control characters use their short
escapes, other characters below U+0020 use `\u00XX`, and everything else
(including all non-ASCII) is emitted literally. -/
def escapeJsonChar (c : Char) : List Char :=
  if c = '"' then ['\\', '"']
  else if c = '\\' then ['\\', '\\']
  else if c = '\n' then ['\\', 'n']
  else if c = '\r' then ['\\', 'r']
  else if c = '\t' then ['\\', 't']
  else if c.toNat = 8 then ['\\', 'b']
  else if c.toNat = 12 then ['\\', 'f']
  else if c.toNat < 32 then ['\\', 'u', '0', '0', hexChar (c.toNat / 16), hexChar (c.toNat % 16)]
  else [c]

/-- A JSON string literal: quotes around the escaped characters. -/
def renderStr (s : String) : String :=
  "\"" ++ String.mk (s.data.map escapeJsonChar).flatten ++ "\""

/-- Code-point lexicographic comparison of character lists — how Python
compares `str` values. -/
def listLe : List Char → List Char → Bool
  | [], _ => true
  | _ :: _, [] => false
  | a :: as, b :: bs =>
    if a.toNat < b.toNat then true
    else if b.toNat < a.toNat then false
    else listLe as bs

/-- Python string comparison `s <= t` (code points). -/
def strLe (s t : String) : Bool := listLe s.data t.data

/-- Characters with equal code points are equal. -/
theorem char_eq_of_nat {a b : Char} (h1 : ¬ a.toNat < b.toNat) (h2 : ¬ b.toNat < a.toNat) :
    a = b :=
  Char.ext (UInt32.ext (Nat.le_antisymm (Nat.not_lt.mp h2) (Nat.not_lt.mp h1)))

/-- `listLe` is total. -/
theorem listLe_total : ∀ x y : List Char, listLe x y = true ∨ listLe y x = true
  | [], _ => Or.inl rfl
  | _ :: _, [] => Or.inr rfl
  | a :: as, b :: bs => by
    by_cases h1 : a.toNat < b.toNat
    · left; simp [listLe, h1]
    · by_cases h2 : b.toNat < a.toNat
      · right; simp [listLe, h2]
      · rcases listLe_total as bs with h | h
        · left; simp [listLe, h1, h2, h]
        · right; simp [listLe, h1, h2, h]

/-- `listLe` is transitive. -/
theorem listLe_trans : ∀ x y z : List Char,
    listLe x y = true → listLe y z = true → listLe x z = true
  | [], _, _, _, _ => rfl
  | _ :: _, [], _, h1, _ => by simp [listLe] at h1
  | _ :: _, _ :: _, [], _, h2 => by simp [listLe] at h2
  | a :: as, b :: bs, c :: cs, h1, h2 => by
    simp only [listLe] at h1 h2 ⊢
    by_cases hab : a.toNat < b.toNat <;> by_cases hbc : b.toNat < c.toNat
    · simp [Nat.lt_trans hab hbc]
    · by_cases hcb : c.toNat < b.toNat
      · simp [hbc, hcb] at h2
      · have hbceq : b = c := char_eq_of_nat hbc hcb
        subst hbceq
        simp [hab]
    · by_cases hba : b.toNat < a.toNat
      · simp [hab, hba] at h1
      · have habeq : a = b := char_eq_of_nat hab hba
        subst habeq
        simp [hbc]
    · by_cases hba : b.toNat < a.toNat
      · simp [hab, hba] at h1
      · by_cases hcb : c.toNat < b.toNat
        · simp [hbc, hcb] at h2
        · have habeq : a = b := char_eq_of_nat hab hba
          have hbceq : b = c := char_eq_of_nat hbc hcb
          subst habeq
          subst hbceq
          rw [if_neg hab, if_neg hab] at h1 h2 ⊢
          exact listLe_trans as bs cs h1 h2

/-- `listLe` is antisymmetric. -/
theorem listLe_antisymm : ∀ x y : List Char,
    listLe x y = true → listLe y x = true → x = y
  | [], [], _, _ => rfl
  | [], _ :: _, _, h2 => by simp [listLe] at h2
  | _ :: _, [], h1, _ => by simp [listLe] at h1
  | a :: as, b :: bs, h1, h2 => by
    simp only [listLe] at h1 h2
    by_cases hab : a.toNat < b.toNat
    · have hba : ¬ b.toNat < a.toNat := by omega
      simp [hab, hba] at h2
    · by_cases hba : b.toNat < a.toNat
      · simp [hab, hba] at h1
      · have habeq : a = b := char_eq_of_nat hab hba
        subst habeq
        rw [if_neg hab, if_neg hab] at h1 h2
        rw [listLe_antisymm as bs h1 h2]

/-- `strLe` is total. -/
theorem strLe_total (s t : String) : strLe s t = true ∨ strLe t s = true :=
  listLe_total s.data t.data

/-- `strLe` is transitive. -/
theorem strLe_trans {s t u : String} (h1 : strLe s t = true) (h2 : strLe t u = true) :
    strLe s u = true :=
  listLe_trans s.data t.data u.data h1 h2

/-- `strLe` is antisymmetric. -/
theorem strLe_antisymm {s t : String} (h1 : strLe s t = true) (h2 : strLe t s = true) :
    s = t := by
  cases s with
  | mk ls =>
    cases t with
    | mk lt => exact congrArg String.mk (listLe_antisymm ls lt h1 h2)

/-- Sort an association list by key in code-point order — what
`json.dumps(..., sort_keys=True)` does to `dict.items()`. Python uses a
stable mergesort; on lists with distinct keys (the only lists a `dict` can
produce) every correct by-key sort produces the same output, and insertion
sort keeps every definition kernel-executable. -/
def sortPairs {β : Type} (l : List (String × β)) : List (String × β) :=
  List.insertionSort (fun a b => strLe a.1 b.1 = true) l

/-- One rendered object item `"key":value`. -/
def renderItem (p : String × String) : String :=
  renderStr p.1 ++ ":" ++ p.2

/-- Join already-rendered pieces with the `","` item separator of
`json.dumps(..., separators=(",", ":"))`. -/
def joinComma : List String → String
  | [] => ""
  | [x] => x
  | x :: y :: rest => x ++ "," ++ joinComma (y :: rest)

mutual

/-- Render a JSON value exactly as
`json.dumps(obj, sort_keys=True, separators=(",", ":"), ensure_ascii=False, allow_nan=False)`
does: keys sorted at every nesting level, no whitespace, non-ASCII literal. -/
def renderJson : Json → String
  | .null => "null"
  | .bool true => "true"
  | .bool false => "false"
  | .int i => toString i
  | .str s => renderStr s
  | .arr xs => "[" ++ joinComma (renderList xs) ++ "]"
  | .obj kvs => "\x7b" ++ joinComma ((sortPairs (renderPairs kvs)).map renderItem) ++ "\x7d"

/-- Rendered elements of a JSON array, in order. -/
def renderList : List Json → List String
  | [] => []
  | x :: rest => renderJson x :: renderList rest

/-- Object items with the value already rendered; sorting happens afterwards
(by raw key, as Python sorts), which commutes with rendering the values. -/
def renderPairs : List (String × Json) → List (String × String)
  | [] => []
  | (k, v) :: rest => (k, renderJson v) :: renderPairs rest

end

/-- `canonicalize_json` from `app/schemas/evaluation.py`: the UTF-8 bytes of
the canonical rendering. -/
def canonicalize_json (obj : Json) : List Nat :=
  utf8Bytes (renderJson obj)

/-! ### SHA-256 (`hashlib.sha256(..).hexdigest()`), over byte lists -/

/-- Truncate to 32 bits. -/
def w32 (n : Nat) : Nat := n % 4294967296

/-- Right rotation of a 32-bit value (argument assumed below `2 ^ 32`). -/
def rotr32 (k x : Nat) : Nat :=
  x / 2 ^ k + x % 2 ^ k * 2 ^ (32 - k)

/-- Bitwise complement on 32 bits. -/
def not32 (x : Nat) : Nat := 4294967295 ^^^ x

/-- SHA-256 `Ch`. -/
def shaCh (x y z : Nat) : Nat := (x &&& y) ^^^ (not32 x &&& z)

/-- SHA-256 `Maj`. -/
def shaMaj (x y z : Nat) : Nat := (x &&& y) ^^^ (x &&& z) ^^^ (y &&& z)

/-- SHA-256 `Σ0`. -/
def bsig0 (x : Nat) : Nat := rotr32 2 x ^^^ rotr32 13 x ^^^ rotr32 22 x

/-- SHA-256 `Σ1`. -/
def bsig1 (x : Nat) : Nat := rotr32 6 x ^^^ rotr32 11 x ^^^ rotr32 25 x

/-- SHA-256 `σ0`. -/
def ssig0 (x : Nat) : Nat := rotr32 7 x ^^^ rotr32 18 x ^^^ x / 8

/-- SHA-256 `σ1`. -/
def ssig1 (x : Nat) : Nat := rotr32 17 x ^^^ rotr32 19 x ^^^ x / 1024

/-- The 64 SHA-256 round constants. -/
def shaK : List Nat :=
  [1116352408, 1899447441, 3049323471, 3921009573,
   961987163, 1508970993, 2453635748, 2870763221,
   3624381080, 310598401, 607225278, 1426881987,
   1925078388, 2162078206, 2614888103, 3248222580,
   3835390401, 4022224774, 264347078, 604807628,
   770255983, 1249150122, 1555081692, 1996064986,
   2554220882, 2821834349, 2952996808, 3210313671,
   3336571891, 3584528711, 113926993, 338241895,
   666307205, 773529912, 1294757372, 1396182291,
   1695183700, 1986661051, 2177026350, 2456956037,
   2730485921, 2820302411, 3259730800, 3345764771,
   3516065817, 3600352804, 4094571909, 275423344,
   430227734, 506948616, 659060556, 883997877,
   958139571, 1322822218, 1537002063, 1747873779,
   1955562222, 2024104815, 2227730452, 2361852424,
   2428436474, 2756734187, 3204031479, 3329325298]

/-- Big-endian 8-byte encoding of a length in bits. -/
def be64 (n : Nat) : List Nat :=
  [n / 2 ^ 56 % 256, n / 2 ^ 48 % 256, n / 2 ^ 40 % 256, n / 2 ^ 32 % 256,
   n / 2 ^ 24 % 256, n / 2 ^ 16 % 256, n / 2 ^ 8 % 256, n % 256]

/-- SHA-256 padding: `0x80`, zeros to 56 mod 64, then the bit length. -/
def padMessage (msg : List Nat) : List Nat :=
  msg ++ [128] ++ List.replicate ((119 - msg.length % 64) % 64) 0 ++ be64 (8 * msg.length)

/-- Split a byte list into 64-byte blocks. -/
def chunks64 : List Nat → List (List Nat)
  | [] => []
  | a :: rest => ((a :: rest).take 64) :: chunks64 ((a :: rest).drop 64)
termination_by l => l.length
decreasing_by simp_all [List.length_drop]; omega

/-- Big-endian 32-bit words from bytes. -/
def bytesToWords : List Nat → List Nat
  | b0 :: b1 :: b2 :: b3 :: rest => (((b0 * 256 + b1) * 256 + b2) * 256 + b3) :: bytesToWords rest
  | _ => []

/-- Message-schedule extension; `acc` holds the words produced so far, most
recent first, so `W[t-2]` is entry 1 and `W[t-16]` is entry 15. -/
def scheduleAux : Nat → List Nat → List Nat
  | 0, acc => acc
  | k + 1, acc =>
    let nw := w32 (ssig1 (acc.getD 1 0) + acc.getD 6 0 + ssig0 (acc.getD 14 0) + acc.getD 15 0)
    scheduleAux k (nw :: acc)

/-- The 64-entry message schedule of one block. -/
def extendWords (block16 : List Nat) : List Nat :=
  (scheduleAux 48 block16.reverse).reverse

/-- The eight working registers of SHA-256. -/
structure Sha256State where
  a : Nat
  b : Nat
  c : Nat
  d : Nat
  e : Nat
  f : Nat
  g : Nat
  h : Nat
deriving Repr, DecidableEq

/-- Initial hash value. -/
def shaH0 : Sha256State :=
  ⟨1779033703, 3144134277, 1013904242, 2773480762,
   1359893119, 2600822924, 528734635, 1541459225⟩

/-- One compression round, consuming a `(K, W)` pair. -/
def compressWord (st : Sha256State) (kw : Nat × Nat) : Sha256State :=
  let t1 := w32 (st.h + bsig1 st.e + shaCh st.e st.f st.g + kw.1 + kw.2)
  let t2 := w32 (bsig0 st.a + shaMaj st.a st.b st.c)
  ⟨w32 (t1 + t2), st.a, st.b, st.c, w32 (st.d + t1), st.e, st.f, st.g⟩

/-- Compress one 64-byte block into the running state. -/
def compressBlock (st : Sha256State) (block : List Nat) : Sha256State :=
  let ws := extendWords (bytesToWords block)
  let t := (shaK.zip ws).foldl compressWord st
  ⟨w32 (st.a + t.a), w32 (st.b + t.b), w32 (st.c + t.c), w32 (st.d + t.d),
   w32 (st.e + t.e), w32 (st.f + t.f), w32 (st.g + t.g), w32 (st.h + t.h)⟩

/-- Final state after hashing a byte list. -/
def sha256Final (msg : List Nat) : Sha256State :=
  (chunks64 (padMessage msg)).foldl compressBlock shaH0

/-- Eight lowercase hex digits of one 32-bit word. -/
def wordHexChars (w : Nat) : List Char :=
  [hexChar (w / 16 ^ 7 % 16), hexChar (w / 16 ^ 6 % 16), hexChar (w / 16 ^ 5 % 16),
   hexChar (w / 16 ^ 4 % 16), hexChar (w / 16 ^ 3 % 16), hexChar (w / 16 ^ 2 % 16),
   hexChar (w / 16 % 16), hexChar (w % 16)]

/-- `compute_sha256` from `app/schemas/evaluation.py`: the 64-character
lowercase hex digest. -/
def compute_sha256 (msg : List Nat) : String :=
  let st := sha256Final msg
  String.mk (wordHexChars st.a ++ wordHexChars st.b ++ wordHexChars st.c ++ wordHexChars st.d ++
    wordHexChars st.e ++ wordHexChars st.f ++ wordHexChars st.g ++ wordHexChars st.h)

/-! ### Schema (`app/schemas/evaluation.py`) -/

/-- Consume exactly `n` ASCII digits. -/
def takeDigits : Nat → List Char → Option (List Char)
  | 0, cs => some cs
  | _ + 1, [] => none
  | n + 1, c :: cs => if c.isDigit then takeDigits n cs else none

/-- Consume one expected character. -/
def expectChar (c : Char) : List Char → Option (List Char)
  | [] => none
  | d :: cs => if d = c then some cs else none

/-- Drop a maximal run of digits (the greedy `\d+`). -/
def dropDigits : List Char → List Char
  | [] => []
  | c :: cs => if c.isDigit then dropDigits cs else c :: cs

/-- The optional fractional part `(\.\d+)?`. -/
def fracPart : List Char → Option (List Char)
  | '.' :: cs =>
      match cs with
      | c :: _ => if c.isDigit then some (dropDigits cs) else none
      | [] => none
  | cs => some cs

/-- The timezone tail `(Z|[+-]\d{2}:\d{2})` followed by end of input. -/
def tzPart (cs : List Char) : Bool :=
  match cs with
  | ['Z'] => true
  | c :: rest =>
      if c = '+' || c = '-' then
        match (takeDigits 2 rest).bind (expectChar ':') |>.bind (takeDigits 2) with
        | some [] => true
        | _ => false
      else false
  | [] => false

/-- The `injected_time_utc` validator's regular expression
`^\d{4}-\d{2}-\d{2}T\d{2}:\d{2}:\d{2}(\.\d+)?(Z|[+-]\d{2}:\d{2})$`. -/
def timeFormatOk (s : String) : Bool :=
  match (takeDigits 4 s.data).bind (expectChar '-') |>.bind (takeDigits 2)
      |>.bind (expectChar '-') |>.bind (takeDigits 2) |>.bind (expectChar 'T')
      |>.bind (takeDigits 2) |>.bind (expectChar ':') |>.bind (takeDigits 2)
      |>.bind (expectChar ':') |>.bind (takeDigits 2) |>.bind fracPart with
  | some rest => tzPart rest
  | none => false

/-- A validated `EvaluationRequest` (the typed value held after pydantic
construction succeeds). The payload is the parsed JSON object. -/
structure EvaluationRequest where
  version : String
  subject : String
  ruleset : String
  payload : List (String × Json)
  injected_time_utc : String
deriving Repr, DecidableEq

/-- The conjunction of the pydantic field and model validators of
`EvaluationRequest`: `version == "v1"`, subject and ruleset non-empty and at
most 128 characters, the time format regex, and `_validate_json_only_types`
on the payload — the last is identically true here because the `Json` type
cannot represent NaN/Infinity floats, non-string keys, or non-JSON Python
objects, which are all that check rejects. -/
def schemaValidB (r : EvaluationRequest) : Bool :=
  r.version == "v1" &&
  (!(r.subject == "") && r.subject.length ≤ 128) &&
  (!(r.ruleset == "") && r.ruleset.length ≤ 128) &&
  timeFormatOk r.injected_time_utc

/-- `request.model_dump()`: the request as a JSON object, fields in
declaration order (the canonical encoder sorts keys anyway). -/
def EvaluationRequest.model_dump (r : EvaluationRequest) : Json :=
  .obj [("version", .str r.version), ("subject", .str r.subject),
        ("ruleset", .str r.ruleset), ("payload", .obj r.payload),
        ("injected_time_utc", .str r.injected_time_utc)]

/-- A single evaluation trace step (`TraceStep`). -/
structure TraceStep where
  step_name : String
  status : String
  details : String
deriving Repr, DecidableEq

/-- `TraceStep.model_dump()`. -/
def TraceStep.toJson (s : TraceStep) : Json :=
  .obj [("step_name", .str s.step_name), ("status", .str s.status), ("details", .str s.details)]

/-- The evaluation result schema (`EvaluationResult`). Note the source file
`app/core/engine.py` has no notion of a policy id, and accordingly this
schema has no `policy_id` field — faithful to `app/schemas/evaluation.py`. -/
structure EvaluationResult where
  evaluation_id : String
  input_sha256 : String
  output_sha256 : String
  manifest_sha256 : String
  decision : String
  reasons : List String
  trace : List TraceStep
  created_time_utc : String
deriving Repr, DecidableEq

/-- The lowercase hex alphabet of the hash validators. -/
def hexDigits : List Char := "0123456789abcdef".data

/-- The `validate_sha256` field validator: 64 characters, all lowercase hex. -/
def hexStr64 (s : String) : Bool :=
  s.length == 64 && s.data.all (fun c => hexDigits.contains c)

/-- Constructing an `EvaluationResult` runs the pydantic field validators;
a failing validator raises, modelled as an error value. -/
def mkEvaluationResult (eid isha osha msha dec : String) (reasons : List String)
    (trace : List TraceStep) (ct : String) : Except PyError EvaluationResult :=
  if !(dec == "ACCEPT" || dec == "REJECT") then
    .error (.validationError "decision must be 'ACCEPT' or 'REJECT'")
  else if reasons.isEmpty then
    .error (.validationError "reasons must be non-empty")
  else if !hexStr64 isha then
    .error (.validationError "hash must be 64 hex chars")
  else if !hexStr64 osha then
    .error (.validationError "hash must be 64 hex chars")
  else if !(msha == "" || hexStr64 msha) then
    .error (.validationError "hash must be 64 hex chars")
  else
    .ok ⟨eid, isha, osha, msha, dec, reasons, trace, ct⟩

/-- Result of replay verification (`ReplayResult`). -/
structure ReplayResult where
  replay_ok : Bool
  mismatches : List String
deriving Repr, DecidableEq

/-! ### Invariants (`app/invariants/checks.py`) -/

/-- `check_pre_invariants`: sequential checks, raising `InvariantViolation`
at the first failure, otherwise returning the full `(name, status)` list. -/
def check_pre_invariants (r : EvaluationRequest) : Except PyError (List (String × String)) :=
  if r.version ≠ "v1" then .error (.invariantViolation "PRE: version must be 'v1'")
  else if r.subject = "" ∨ r.subject.length > 128 then
    .error (.invariantViolation "PRE: subject invalid")
  else if r.ruleset = "" ∨ r.ruleset.length > 128 then
    .error (.invariantViolation "PRE: ruleset invalid")
  else if r.injected_time_utc = "" then
    .error (.invariantViolation "PRE: injected_time_utc required")
  else
    .ok [("version_check", "PASS"), ("subject_check", "PASS"), ("ruleset_check", "PASS"),
         ("injected_time_check", "PASS"), ("payload_type_check", "PASS"),
         ("no_extra_fields_check", "PASS")]

/-- `check_during_invariants`: unconditional passes. -/
def check_during_invariants : List (String × String) :=
  [("no_system_clock_read", "PASS"), ("artifact_dir_only", "PASS")]

/-- `check_post_invariants`: sequential checks over the assembled result. -/
def check_post_invariants (result : EvaluationResult) (input_sha256 : String) :
    Except PyError (List (String × String)) :=
  if result.input_sha256.length ≠ 64 then
    .error (.invariantViolation "POST: input_sha256 must be 64 hex chars")
  else if result.output_sha256.length ≠ 64 then
    .error (.invariantViolation "POST: output_sha256 must be 64 hex chars")
  else if result.evaluation_id ≠ input_sha256.take 16 then
    .error (.invariantViolation "POST: evaluation_id must be first 16 chars of input_sha256")
  else if result.reasons.isEmpty then
    .error (.invariantViolation "POST: reasons must be non-empty")
  else if ¬(result.decision = "ACCEPT" ∨ result.decision = "REJECT") then
    .error (.invariantViolation "POST: decision must be ACCEPT or REJECT")
  else
    .ok [("input_hash_format", "PASS"), ("output_hash_format", "PASS"),
         ("evaluation_id_derivation", "PASS"), ("reasons_non_empty", "PASS"),
         ("decision_valid", "PASS"), ("trace_deterministic", "PASS"),
         ("canonicalization_stable", "PASS")]

/-! ### Python `str()` rendering of payload values, used in f-string details -/

/-- Join with `", "`, as Python renders list and dict items. -/
def joinCommaSpace : List String → String
  | [] => ""
  | [x] => x
  | x :: y :: rest => x ++ ", " ++ joinCommaSpace (y :: rest)

/-- Python `repr` of a string: single quotes, or double quotes when the text
contains a single quote and no double quote. Python additionally escapes
backslashes, quotes and control characters inside the literal; the strings
routed here only reach trace `details` text, which no claim inspects
byte-for-byte, so that escaping is not reproduced. -/
def pyReprString (s : String) : String :=
  if s.contains '\'' && !(s.contains '"') then "\"" ++ s ++ "\""
  else "'" ++ s ++ "'"

/-- Characters Python's `str.strip()` removes (ASCII whitespace; the
additional Unicode space code points never occur in the modelled strings). -/
def isPySpace (c : Char) : Bool :=
  c = ' ' || c = '\t' || c = '\n' || c = '\r' || c.toNat = 11 || c.toNat = 12

/-- Python `str.strip()`. -/
def pyStrip (s : String) : String :=
  String.mk (((s.data.dropWhile isPySpace).reverse.dropWhile isPySpace).reverse)

/-- Python `str()` of booleans. -/
def pyBoolStr : Bool → String
  | true => "True"
  | false => "False"

mutual

/-- Python `repr` of a JSON-derived value. -/
def pyRepr : Json → String
  | .null => "None"
  | .bool b => pyBoolStr b
  | .int i => toString i
  | .str s => pyReprString s
  | .arr xs => "[" ++ joinCommaSpace (pyReprList xs) ++ "]"
  | .obj kvs => "\x7b" ++ joinCommaSpace (pyReprPairs kvs) ++ "\x7d"

/-- `repr` of each list element. -/
def pyReprList : List Json → List String
  | [] => []
  | x :: rest => pyRepr x :: pyReprList rest

/-- `repr` of each dict item as `'key': value`. -/
def pyReprPairs : List (String × Json) → List String
  | [] => []
  | (k, v) :: rest => (pyReprString k ++ ": " ++ pyRepr v) :: pyReprPairs rest

end

/-- Python `str()` of a JSON-derived value: identity on strings, `repr`-based
for containers and the remaining scalars. -/
def pyStr (j : Json) : String :=
  match j with
  | .str s => s
  | _ => pyRepr j

/-- Python `str()` of a list of strings, as an f-string renders `{reasons}`. -/
def pyStrList (rs : List String) : String :=
  pyRepr (.arr (rs.map .str))

/-! ### Engine (`app/core/engine.py`) -/

/-- `_evaluate_mvp_rule`: the legacy placeholder rule actually wired into
`run_evaluation` in the source — `payload.get("assert") is True` gives
ACCEPT, a missing key or any other value gives REJECT. -/
def evaluate_mvp_rule (payload : List (String × Json)) : String × List String :=
  match dictGet payload "assert" with
  | some (.bool true) => ("ACCEPT", ["MVP rule: payload.assert == true"])
  | none => ("REJECT", ["MVP rule: payload.assert key not present"])
  | some v => ("REJECT", ["MVP rule: payload.assert == " ++ pyStr v ++ " (not true)"])

/-- The `output_for_hash` object of `run_evaluation` (engine.py lines 86-93):
exactly the keys written there, in dict-literal order. The schema's canonical
encoder sorts keys before hashing, so order is irrelevant to the digest. -/
def output_for_hash (evaluation_id input_sha256 decision : String) (reasons : List String)
    (trace : List TraceStep) (created_time_utc : String) : Json :=
  .obj [("evaluation_id", .str evaluation_id),
        ("input_sha256", .str input_sha256),
        ("decision", .str decision),
        ("reasons", .arr (reasons.map .str)),
        ("trace", .arr (trace.map TraceStep.toJson)),
        ("created_time_utc", .str created_time_utc)]

/-- `run_evaluation`: the full engine pipeline. The source also builds a
`partial_result` dict that never reaches the returned value; it is omitted.
Each trace step reproduces the f-string `details` of the source. -/
def run_evaluation (request : EvaluationRequest) : Except PyError (EvaluationResult × String) := do
  let preChecks ← check_pre_invariants request
  let trace1 := preChecks.map (fun p =>
    TraceStep.mk ("pre_" ++ p.1) p.2 ("PRE invariant check: " ++ p.1))
  let inputCanonical := canonicalize_json request.model_dump
  let input_sha256 := compute_sha256 inputCanonical
  let trace2 := trace1 ++
    [TraceStep.mk "canonicalize_input" "PASS" ("Input canonicalized, sha256=" ++ input_sha256)]
  let evaluation_id := input_sha256.take 16
  let trace3 := trace2 ++
    [TraceStep.mk "derive_evaluation_id" "PASS" ("evaluation_id=" ++ evaluation_id)]
  let trace4 := trace3 ++ check_during_invariants.map (fun p =>
    TraceStep.mk ("during_" ++ p.1) p.2 ("DURING invariant check: " ++ p.1))
  let dr := evaluate_mvp_rule request.payload
  let decision := dr.1
  let reasons := dr.2
  let trace5 := trace4 ++
    [TraceStep.mk "mvp_rule_evaluation" "PASS"
      ("MVP rule applied: decision=" ++ decision ++ ", reasons=" ++ pyStrList reasons)]
  let outputCanonical := canonicalize_json
    (output_for_hash evaluation_id input_sha256 decision reasons trace5 request.injected_time_utc)
  let output_sha256 := compute_sha256 outputCanonical
  let trace6 := trace5 ++
    [TraceStep.mk "compute_output_hash" "PASS" ("output_sha256=" ++ output_sha256)]
  let result ← mkEvaluationResult evaluation_id input_sha256 output_sha256 "" decision reasons
    trace6 request.injected_time_utc
  let postChecks ← check_post_invariants result input_sha256
  let trace7 := trace6 ++ postChecks.map (fun p =>
    TraceStep.mk ("post_" ++ p.1) p.2 ("POST invariant check: " ++ p.1))
  let finalResult ← mkEvaluationResult evaluation_id input_sha256 output_sha256 "" decision
    reasons trace7 request.injected_time_utc
  return (finalResult, input_sha256)

/-- `run_pure_evaluation`: the `(evaluation_id, input_sha256, output_sha256)`
triple (propagating an engine exception unchanged). -/
def run_pure_evaluation (request : EvaluationRequest) : Except PyError (String × String × String) := do
  let (result, input_sha256) ← run_evaluation request
  return (result.evaluation_id, input_sha256, result.output_sha256)

/-! ### Policy (`app/policy/__init__.py`) -/

/-- Python truthiness of a JSON-derived value (`if policy.get("legacy"):`). -/
def jsonTruthy : Json → Bool
  | .null => false
  | .bool b => b
  | .int i => i ≠ 0
  | .str s => s ≠ ""
  | .arr xs => !xs.isEmpty
  | .obj kvs => !kvs.isEmpty

/-- `_LEGACY_POLICY_ID`. -/
def legacyPolicyId : String := "mvp-placeholder-v0"

/-- `get_default_policy_id`. -/
def get_default_policy_id : String := "evaluation-policy-v1"

/-- One rule trace entry of `evaluate_with_policy`. -/
structure RuleTraceEntry where
  rule_id : String
  rule_name : String
  status : String
  detail : String
deriving Repr, DecidableEq

/-- The legacy policy document, returned by `load_policy` for
`mvp-placeholder-v0`. -/
def load_policy_legacy : List (String × Json) :=
  [("policy_id", .str legacyPolicyId), ("policy_version", .str "0.0.0"),
   ("description", .str "Legacy MVP placeholder rule (assert == true)"),
   ("legacy", .bool true)]

/-- Modelled from the spec: `load_policy` for the default id reads the data
file `evaluation_policy_v1.json`, which is not among the Python sources. Per
the spec the default policy is addressed by the stable id
`evaluation-policy-v1` and is not the legacy rule; `evaluate_with_policy`
consults only the (absent) `legacy` key of the loaded document, so any
document without a truthy `legacy` key is faithful. -/
def default_policy_doc : List (String × Json) :=
  [("policy_id", .str "evaluation-policy-v1")]

/-- `_evaluate_legacy_rule`. -/
def evaluate_legacy_rule (payload : List (String × Json)) :
    String × List String × List RuleTraceEntry :=
  match dictGet payload "assert" with
  | some (.bool true) =>
      ("ACCEPT", ["Legacy MVP rule: payload.assert == true"],
       [⟨"LEGACY", "mvp_assert_check", "PASS", "payload.assert == true"⟩])
  | none =>
      ("REJECT", ["Legacy MVP rule: payload.assert key not present"],
       [⟨"LEGACY", "mvp_assert_check", "FAIL", "assert key missing"⟩])
  | some v =>
      ("REJECT", ["Legacy MVP rule: payload.assert == " ++ pyStr v ++ " (not true)"],
       [⟨"LEGACY", "mvp_assert_check", "FAIL", "assert = " ++ pyStr v⟩])

/-- `evaluate_with_policy`: the sequential fail-closed rules R001..R005 of
the default policy, or the legacy rule when the policy document carries a
truthy `legacy` key. `payload.get(..) is None` is a missing key or a JSON
null. -/
def evaluate_with_policy (policy : List (String × Json)) (payload : List (String × Json)) :
    String × List String × List RuleTraceEntry :=
  if (match dictGet policy "legacy" with | some v => jsonTruthy v | none => false) then
    evaluate_legacy_rule payload
  else
    match dictGet payload "decision_requested" with
    | none =>
        ("REJECT",
         ["R001:MISSING_DECISION_REQUESTED: Required field 'decision_requested' is missing from payload"],
         [⟨"R001", "check_decision_requested_present", "FAIL", "payload.decision_requested not found"⟩])
    | some .null =>
        ("REJECT",
         ["R001:MISSING_DECISION_REQUESTED: Required field 'decision_requested' is missing from payload"],
         [⟨"R001", "check_decision_requested_present", "FAIL", "payload.decision_requested not found"⟩])
    | some v =>
      let t1 := [RuleTraceEntry.mk "R001" "check_decision_requested_present" "PASS"
        ("payload.decision_requested = " ++ pyStr v)]
      let dOpt : Option String := match v with
        | .str d => if d = "ACCEPT" ∨ d = "REJECT" then some d else none
        | _ => none
      match dOpt with
      | none =>
          ("REJECT",
           ["R002:INVALID_DECISION_REQUESTED: Field 'decision_requested' must be exactly 'ACCEPT' or 'REJECT', got '" ++ pyStr v ++ "'"],
           t1 ++ [⟨"R002", "check_decision_requested_valid", "FAIL",
             "decision_requested = '" ++ pyStr v ++ "' is not valid"⟩])
      | some d =>
        let t2 := t1 ++ [RuleTraceEntry.mk "R002" "check_decision_requested_valid" "PASS"
          ("decision_requested = '" ++ d ++ "' is valid")]
        match dictGet payload "justification" with
        | none =>
            ("REJECT",
             ["R003:MISSING_JUSTIFICATION: Required field 'justification' is missing from payload"],
             t2 ++ [⟨"R003", "check_justification_present", "FAIL", "payload.justification not found"⟩])
        | some .null =>
            ("REJECT",
             ["R003:MISSING_JUSTIFICATION: Required field 'justification' is missing from payload"],
             t2 ++ [⟨"R003", "check_justification_present", "FAIL", "payload.justification not found"⟩])
        | some j =>
          let t3 := t2 ++ [RuleTraceEntry.mk "R003" "check_justification_present" "PASS"
            "payload.justification found"]
          let jsOpt : Option String := match j with
            | .str js => if (pyStrip js).length = 0 then none else some js
            | _ => none
          match jsOpt with
          | none =>
              ("REJECT",
               ["R004:EMPTY_JUSTIFICATION: Field 'justification' must be a non-empty string"],
               t3 ++ [⟨"R004", "check_justification_non_empty", "FAIL",
                 "justification is empty or not a string"⟩])
          | some js =>
            let t4 := t3 ++ [RuleTraceEntry.mk "R004" "check_justification_non_empty" "PASS"
              ("justification has " ++ toString js.length ++ " chars")]
            (d,
             ["R005:DECISION_RECORDED: Decision '" ++ d ++ "' recorded with justification"],
             t4 ++ [⟨"R005", "apply_decision", "PASS", "Recording decision=" ++ d⟩])

/-! ### Artifact store (`app/audit/store.py`)

The filesystem is modelled as a set of directories plus a map from file path
to the JSON document the file holds: every file the store writes is the
canonical encoding of a JSON value, and every load parses the bytes back, so
the byte level round-trips identically through this value-level view. The
transient `.write_test` probe of `verify_artifacts_dir_writable` (written and
deleted under the artifact root, never under an evaluation directory) is
abstracted to a `writable` flag. -/

/-- The modelled filesystem state. -/
structure FileStore where
  dirs : List String
  files : List (String × Json)
  writable : Bool
deriving Repr, DecidableEq

/-- `ARTIFACTS_BASE` (the absolute prefix of the repository is irrelevant and
dropped). -/
def ARTIFACTS_BASE : String := "artifacts"

/-- `EVALUATIONS_DIR`. -/
def EVALUATIONS_DIR : String := "artifacts/evaluations"

/-- `MANIFESTS_DIR`. -/
def MANIFESTS_DIR : String := "artifacts/manifests"

/-- `os.path.join` for the forward-slash paths used here. -/
def pathJoin (a b : String) : String := a ++ "/" ++ b

/-- Content of the file at `p`, when present. -/
def FileStore.fileNamed (fs : FileStore) (p : String) : Option Json :=
  (fs.files.find? (fun q => q.1 == p)).map Prod.snd

/-- `os.path.isfile`. -/
def FileStore.isFile (fs : FileStore) (p : String) : Bool :=
  (fs.fileNamed p).isSome

/-- `os.path.isdir`. -/
def FileStore.isDir (fs : FileStore) (p : String) : Bool :=
  fs.dirs.contains p

/-- `os.path.exists`: a directory or a file. -/
def FileStore.pathExists (fs : FileStore) (p : String) : Bool :=
  fs.isDir p || fs.isFile p

/-- Write (or atomically replace) the file at `p`. -/
def FileStore.setFile (fs : FileStore) (p : String) (v : Json) : FileStore :=
  { fs with files := (p, v) :: fs.files.filter (fun q => !(q.1 == p)) }

/-- `os.makedirs` for the single new level the store creates. -/
def FileStore.addDir (fs : FileStore) (p : String) : FileStore :=
  { fs with dirs := p :: fs.dirs }

/-- `_write_json_file`: write the canonical bytes atomically and return
`(sha256, byte_size)` of those bytes. -/
def write_json_file (fs : FileStore) (path : String) (data : Json) :
    FileStore × String × Nat :=
  let canonical := canonicalize_json data
  (fs.setFile path data, compute_sha256 canonical, canonical.length)

/-- `store_evaluation`: the five writes behind the append-only gate. The
state is threaded explicitly so that an error return also exhibits the
(unchanged) filesystem. -/
def store_evaluation (fs : FileStore) (request : EvaluationRequest)
    (result : EvaluationResult) : FileStore × Except PyError EvaluationResult :=
  if !(fs.isDir ARTIFACTS_BASE) then
    (fs, .error (.invariantViolation ("Artifacts directory does not exist: " ++ ARTIFACTS_BASE)))
  else if !fs.writable then
    (fs, .error (.invariantViolation "Artifacts directory not writable"))
  else
    let eval_dir := pathJoin EVALUATIONS_DIR result.evaluation_id
    if fs.pathExists eval_dir then
      (fs, .error (.invariantViolation ("Evaluation already exists (append-only): " ++ eval_dir)))
    else
      let fs1 := fs.addDir eval_dir
      let w1 := write_json_file fs1 (pathJoin eval_dir "input.json") request.model_dump
      let traceData := Json.arr (result.trace.map TraceStep.toJson)
      let w2 := write_json_file w1.1 (pathJoin eval_dir "trace.json") traceData
      let outputData := Json.obj
        [("evaluation_id", .str result.evaluation_id),
         ("input_sha256", .str result.input_sha256),
         ("output_sha256", .str result.output_sha256),
         ("decision", .str result.decision),
         ("reasons", .arr (result.reasons.map .str)),
         ("created_time_utc", .str result.created_time_utc)]
      let w3 := write_json_file w2.1 (pathJoin eval_dir "output.json") outputData
      let manifestPairs : List (String × Json) :=
        [("evaluation_id", .str result.evaluation_id),
         ("files", .arr
           [.obj [("path", .str "input.json"), ("sha256", .str w1.2.1), ("size", .int (Int.ofNat w1.2.2))],
            .obj [("path", .str "output.json"), ("sha256", .str w3.2.1), ("size", .int (Int.ofNat w3.2.2))],
            .obj [("path", .str "trace.json"), ("sha256", .str w2.2.1), ("size", .int (Int.ofNat w2.2.2))]])]
      let manifest_sha256 := compute_sha256 (canonicalize_json (.obj manifestPairs))
      let metadata := Json.obj
        [("evaluation_id", .str result.evaluation_id),
         ("injected_time_utc", .str request.injected_time_utc),
         ("subject", .str request.subject),
         ("ruleset", .str request.ruleset),
         ("input_sha256", .str result.input_sha256),
         ("output_sha256", .str result.output_sha256),
         ("trace_sha256", .str w2.2.1),
         ("manifest_sha256", .str manifest_sha256)]
      let w4 := write_json_file w3.1 (pathJoin eval_dir "metadata.json") metadata
      let manifestWithSha := Json.obj (manifestPairs ++ [("manifest_sha256", .str manifest_sha256)])
      let w5 := write_json_file w4.1 (pathJoin MANIFESTS_DIR (result.evaluation_id ++ ".manifest.json"))
        manifestWithSha
      (w5.1, .ok ⟨result.evaluation_id, result.input_sha256, result.output_sha256, manifest_sha256,
        result.decision, result.reasons, result.trace, result.created_time_utc⟩)

/-- `load_evaluation_input`. -/
def load_evaluation_input (fs : FileStore) (evaluation_id : String) : Option Json :=
  fs.fileNamed (pathJoin (pathJoin EVALUATIONS_DIR evaluation_id) "input.json")

/-- `load_evaluation_output`. -/
def load_evaluation_output (fs : FileStore) (evaluation_id : String) : Option Json :=
  fs.fileNamed (pathJoin (pathJoin EVALUATIONS_DIR evaluation_id) "output.json")

/-- `load_evaluation_manifest`. -/
def load_evaluation_manifest (fs : FileStore) (evaluation_id : String) : Option Json :=
  fs.fileNamed (pathJoin MANIFESTS_DIR (evaluation_id ++ ".manifest.json"))

/-- `evaluation_exists`. -/
def evaluation_exists (fs : FileStore) (evaluation_id : String) : Bool :=
  fs.isDir (pathJoin EVALUATIONS_DIR evaluation_id)

/-- One ZIP entry as the bundle builds it: archive name, the fixed
`date_time` tuple, and the file bytes. The surrounding ZIP container
(central directory, DEFLATE) is a fixed deterministic function of this
entry list and is not re-modelled. -/
structure ZipEntry where
  name : String
  dateTime : Nat × Nat × Nat × Nat × Nat × Nat
  data : List Nat
deriving Repr, DecidableEq

/-- The `fixed_time` constant `(2000, 1, 1, 0, 0, 0)`. -/
def fixedZipTime : Nat × Nat × Nat × Nat × Nat × Nat := (2000, 1, 1, 0, 0, 0)

/-- Name of a direct child of `dir`, when `p` is one (`os.listdir` view). -/
def childName (dir p : String) : Option String :=
  let pre := (dir ++ "/").data
  if p.data.take pre.length = pre then
    let rest := p.data.drop pre.length
    if rest.contains '/' then none else some (String.mk rest)
  else none

/-- The direct file children of a directory. -/
def listdirFiles (fs : FileStore) (dir : String) : List String :=
  fs.files.filterMap (fun q => childName dir q.1)

/-- `create_evaluation_bundle`: all files of the evaluation directory in
`sorted(os.listdir(..))` order, then — appended after them — the manifest
under the archive name `<id>/manifest.json`. The `injected_time_utc`
parameter is unused in the source as well; every entry gets `fixed_time`.
Entry data is the canonical bytes the store wrote for that file. -/
def create_evaluation_bundle (fs : FileStore) (evaluation_id : String)
    (_injected_time_utc : String) : Option (List ZipEntry) :=
  let eval_dir := pathJoin EVALUATIONS_DIR evaluation_id
  if !(fs.isDir eval_dir) then none
  else
    let names := List.insertionSort (fun a b => strLe a b = true) (listdirFiles fs eval_dir)
    let entries := names.filterMap (fun n =>
      (fs.fileNamed (pathJoin eval_dir n)).map (fun v =>
        ZipEntry.mk (evaluation_id ++ "/" ++ n) fixedZipTime (canonicalize_json v)))
    match fs.fileNamed (pathJoin MANIFESTS_DIR (evaluation_id ++ ".manifest.json")) with
    | some v => some (entries ++
        [ZipEntry.mk (evaluation_id ++ "/manifest.json") fixedZipTime (canonicalize_json v)])
    | none => some entries

/-! ### Replay (`app/replay/replay.py`) -/

/-- Message text of a modelled exception. -/
def PyError.message : PyError → String
  | .invariantViolation m => m
  | .validationError m => m
  | .typeError m => m

/-- `dict.get` on a parsed JSON document. -/
def jsonGet (j : Json) (k : String) : Option Json :=
  match j with
  | .obj kvs => dictGet kvs k
  | _ => none

/-- `EvaluationRequest(**saved_input)`: pydantic construction from a parsed
JSON document — strict field types, `extra="forbid"`, then the validators of
`schemaValidB`. -/
def requestOfJson (j : Json) : Except PyError EvaluationRequest :=
  match j with
  | .obj kvs =>
    if !(kvs.all (fun p => p.1 == "version" || p.1 == "subject" || p.1 == "ruleset" ||
        p.1 == "payload" || p.1 == "injected_time_utc")) then
      .error (.validationError "extra fields forbidden")
    else
      match dictGet kvs "version", dictGet kvs "subject", dictGet kvs "ruleset",
          dictGet kvs "payload", dictGet kvs "injected_time_utc" with
      | some (.str v), some (.str s), some (.str ru), some (.obj p), some (.str t) =>
        let r : EvaluationRequest := ⟨v, s, ru, p, t⟩
        if schemaValidB r then .ok r else .error (.validationError "field validation failed")
      | _, _, _, _, _ => .error (.validationError "missing or wrongly typed field")
  | _ => .error (.validationError "not an object")

/-- `LEGACY_POLICY_ID` of `app/replay/replay.py`. -/
def replayLegacyPolicyId : String := "mvp-placeholder-v0"

/-- `replay_evaluation`: loads the stored triple, detects the saved policy
id, re-parses the saved input, and then calls
`run_evaluation(request, policy_id=saved_policy_id)`. `run_evaluation` in
`app/core/engine.py` (line 21) takes no `policy_id` parameter, so in the
source as it stands that call raises
`TypeError: run_evaluation() got an unexpected keyword argument 'policy_id'`
before any comparison is made; the model returns that exception. -/
def replay_evaluation (fs : FileStore) (evaluation_id : String) :
    Except PyError (Option ReplayResult × Option String) :=
  if !(evaluation_exists fs evaluation_id) then
    .ok (none, some ("Evaluation not found: " ++ evaluation_id))
  else
    match load_evaluation_input fs evaluation_id with
    | none => .ok (none, some ("input.json not found for: " ++ evaluation_id))
    | some saved_input =>
      match load_evaluation_output fs evaluation_id with
      | none => .ok (none, some ("output.json not found for: " ++ evaluation_id))
      | some saved_output =>
        match load_evaluation_manifest fs evaluation_id with
        | none => .ok (none, some ("manifest.json not found for: " ++ evaluation_id))
        | some _saved_manifest =>
          let _saved_policy_id : Json :=
            match jsonGet saved_output "policy_id" with
            | none => .str replayLegacyPolicyId
            | some .null => .str replayLegacyPolicyId
            | some v => v
          match requestOfJson saved_input with
          | .error e =>
            .ok (some ⟨false, ["Failed to parse saved input: " ++ e.message]⟩, none)
          | .ok _request =>
            .error (.typeError "run_evaluation() got an unexpected keyword argument 'policy_id'")

/-! ### Structural equality of JSON values (the Codec contract of the spec)

`jsonEquiv` is the spec's notion of "structurally equal": objects compared as
unordered key/value collections (a permutation of items with equal keys and
equivalent values), arrays as ordered lists, scalars by JSON identity. It
subsumes "permutation of object keys at any nesting depth". `GoodJson` states
the dict invariant every Python value has: keys of one object are distinct. -/

mutual

/-- Distinct keys in every object, at every depth. -/
def GoodJson : Json → Prop
  | .null => True
  | .bool _ => True
  | .int _ => True
  | .str _ => True
  | .arr xs => GoodJsonList xs
  | .obj kvs => (kvs.map Prod.fst).Nodup ∧ GoodJsonPairs kvs

/-- `GoodJson` for each array element. -/
def GoodJsonList : List Json → Prop
  | [] => True
  | x :: rest => GoodJson x ∧ GoodJsonList rest

/-- `GoodJson` for each object value. -/
def GoodJsonPairs : List (String × Json) → Prop
  | [] => True
  | (_, v) :: rest => GoodJson v ∧ GoodJsonPairs rest

end

mutual

/-- Structural equality of JSON values per the spec's Codec contract. -/
def jsonEquiv : Json → Json → Prop
  | .null, .null => True
  | .bool a, .bool b => a = b
  | .int a, .int b => a = b
  | .str a, .str b => a = b
  | .arr xs, .arr ys => jsonEquivList xs ys
  | .obj l1, .obj l2 => ∃ l3, jsonEquivPairs l1 l3 ∧ l3.Perm l2
  | _, _ => False

/-- Pointwise structural equality of arrays. -/
def jsonEquivList : List Json → List Json → Prop
  | [], [] => True
  | x :: xs, y :: ys => jsonEquiv x y ∧ jsonEquivList xs ys
  | _, _ => False

/-- Pointwise item equality: same key, equivalent value. -/
def jsonEquivPairs : List (String × Json) → List (String × Json) → Prop
  | [], [] => True
  | (k1, v) :: t1, (k2, w) :: t2 => k1 = k2 ∧ jsonEquiv v w ∧ jsonEquivPairs t1 t2
  | _, _ => False

end

/-- Two sorted association lists that are permutations of each other and have
distinct keys are equal: the key order pins the position of every item. -/
theorem perm_pairwise_nodupkeys_eq {β : Type} :
    ∀ (l₁ l₂ : List (String × β)), l₁.Perm l₂ →
    l₁.Pairwise (fun a b => strLe a.1 b.1 = true) →
    l₂.Pairwise (fun a b => strLe a.1 b.1 = true) →
    (l₁.map Prod.fst).Nodup → l₁ = l₂ := by
  intro l₁
  induction l₁ with
  | nil =>
    intro l₂ hp _ _ _
    have := hp.length_eq
    cases l₂ with
    | nil => rfl
    | cons b t₂ => simp at this
  | cons a t₁ ih =>
    intro l₂ hp hs₁ hs₂ hnd
    cases l₂ with
    | nil =>
      have := hp.length_eq
      simp at this
    | cons b t₂ =>
      by_cases hab : a = b
      · subst hab
        have htp : t₁.Perm t₂ := hp.cons_inv
        have h₁ := (List.pairwise_cons.mp hs₁).2
        have h₂ := (List.pairwise_cons.mp hs₂).2
        have hnd' : (t₁.map Prod.fst).Nodup := by
          simpa using (List.nodup_cons.mp (by simpa using hnd)).2
        rw [ih t₂ htp h₁ h₂ hnd']
      · exfalso
        have ha2 : a ∈ b :: t₂ := hp.mem_iff.mp (List.mem_cons_self a t₁)
        have ha3 : a ∈ t₂ := by
          cases ha2 with
          | head => exact absurd rfl hab
          | tail _ h => exact h
        have hba : strLe b.1 a.1 = true := (List.pairwise_cons.mp hs₂).1 a ha3
        have hb2 : b ∈ a :: t₁ := hp.symm.mem_iff.mp (List.mem_cons_self b t₂)
        have hb3 : b ∈ t₁ := by
          cases hb2 with
          | head => exact absurd rfl (fun h => hab h.symm)
          | tail _ h => exact h
        have hab2 : strLe a.1 b.1 = true := (List.pairwise_cons.mp hs₁).1 b hb3
        have hkey : a.1 = b.1 := strLe_antisymm hab2 hba
        have hnotin : a.1 ∉ t₁.map Prod.fst := (List.nodup_cons.mp (by simpa using hnd)).1
        exact hnotin (hkey ▸ List.mem_map_of_mem Prod.fst hb3)

/-- The key comparison used by `sortPairs`, as order-typeclass instances. -/
theorem sortPairs_isTotal {β : Type} :
    IsTotal (String × β) (fun a b => strLe a.1 b.1 = true) :=
  ⟨fun a b => strLe_total a.1 b.1⟩

/-- Transitivity instance for the key comparison of `sortPairs`. -/
theorem sortPairs_isTrans {β : Type} :
    IsTrans (String × β) (fun a b => strLe a.1 b.1 = true) :=
  ⟨fun _ _ _ h1 h2 => strLe_trans h1 h2⟩

/-- `sortPairs` is invariant under permutation when the keys are distinct:
the heart of key-order-independence of the canonical encoder. -/
theorem sortPairs_perm_eq {β : Type} (m₁ m₂ : List (String × β)) (hp : m₁.Perm m₂)
    (hnd : (m₁.map Prod.fst).Nodup) : sortPairs m₁ = sortPairs m₂ := by
  letI := sortPairs_isTotal (β := β)
  letI := sortPairs_isTrans (β := β)
  apply perm_pairwise_nodupkeys_eq
  · exact (List.perm_insertionSort _ m₁).trans (hp.trans (List.perm_insertionSort _ m₂).symm)
  · exact List.sorted_insertionSort _ m₁
  · exact List.sorted_insertionSort _ m₂
  · exact (((List.perm_insertionSort _ m₁).map Prod.fst).nodup_iff).mpr hnd

/-- `renderPairs` is the pairwise value rendering. -/
theorem renderPairs_eq_map :
    ∀ l : List (String × Json), renderPairs l = l.map (fun p => (p.1, renderJson p.2))
  | [] => rfl
  | (k, v) :: rest => by simp [renderPairs, renderPairs_eq_map rest]

mutual

/-- Structurally equal values render to the same canonical text (values with
the dict key invariant). -/
theorem renderJson_equiv : ∀ (a b : Json), GoodJson a → jsonEquiv a b →
    renderJson a = renderJson b
  | .null, .null, _, _ => rfl
  | .null, .bool _, _, h | .null, .int _, _, h | .null, .str _, _, h
  | .null, .arr _, _, h | .null, .obj _, _, h => by simp [jsonEquiv] at h
  | .bool _, .null, _, h | .bool _, .int _, _, h | .bool _, .str _, _, h
  | .bool _, .arr _, _, h | .bool _, .obj _, _, h => by simp [jsonEquiv] at h
  | .int _, .null, _, h | .int _, .bool _, _, h | .int _, .str _, _, h
  | .int _, .arr _, _, h | .int _, .obj _, _, h => by simp [jsonEquiv] at h
  | .str _, .null, _, h | .str _, .bool _, _, h | .str _, .int _, _, h
  | .str _, .arr _, _, h | .str _, .obj _, _, h => by simp [jsonEquiv] at h
  | .arr _, .null, _, h | .arr _, .bool _, _, h | .arr _, .int _, _, h
  | .arr _, .str _, _, h | .arr _, .obj _, _, h => by simp [jsonEquiv] at h
  | .obj _, .null, _, h | .obj _, .bool _, _, h | .obj _, .int _, _, h
  | .obj _, .str _, _, h | .obj _, .arr _, _, h => by simp [jsonEquiv] at h
  | .bool x, .bool y, _, h => by
    simp only [jsonEquiv] at h
    subst h
    rfl
  | .int x, .int y, _, h => by
    simp only [jsonEquiv] at h
    subst h
    rfl
  | .str x, .str y, _, h => by
    simp only [jsonEquiv] at h
    subst h
    rfl
  | .arr xs, .arr ys, hg, h => by
    simp only [jsonEquiv] at h
    simp only [GoodJson] at hg
    simp only [renderJson, renderJsonList_equiv xs ys hg h]
  | .obj l1, .obj l2, hg, h => by
    simp only [jsonEquiv] at h
    simp only [GoodJson] at hg
    obtain ⟨l3, hpe, hperm⟩ := h
    have h1 : renderPairs l1 = renderPairs l3 := renderJsonPairs_equiv l1 l3 hg.2 hpe
    have h2 : (renderPairs l3).Perm (renderPairs l2) := by
      rw [renderPairs_eq_map, renderPairs_eq_map]
      exact hperm.map _
    have hnd1 : ((renderPairs l1).map Prod.fst).Nodup := by
      rw [renderPairs_eq_map]
      simpa [List.map_map, Function.comp] using hg.1
    have hsort : sortPairs (renderPairs l1) = sortPairs (renderPairs l2) := by
      rw [h1]
      exact sortPairs_perm_eq _ _ h2 (h1 ▸ hnd1)
    simp only [renderJson, hsort]

/-- Array elements render pointwise equally. -/
theorem renderJsonList_equiv : ∀ (xs ys : List Json), GoodJsonList xs →
    jsonEquivList xs ys → renderList xs = renderList ys
  | [], [], _, _ => rfl
  | [], _ :: _, _, h => by simp [jsonEquivList] at h
  | _ :: _, [], _, h => by simp [jsonEquivList] at h
  | x :: xs, y :: ys, hg, h => by
    simp only [jsonEquivList] at h
    simp only [GoodJsonList] at hg
    simp only [renderList, renderJson_equiv x y hg.1 h.1, renderJsonList_equiv xs ys hg.2 h.2]

/-- Pointwise item equivalence gives equal rendered item lists. -/
theorem renderJsonPairs_equiv : ∀ (l1 l3 : List (String × Json)), GoodJsonPairs l1 →
    jsonEquivPairs l1 l3 → renderPairs l1 = renderPairs l3
  | [], [], _, _ => rfl
  | [], _ :: _, _, h => by simp [jsonEquivPairs] at h
  | _ :: _, [], _, h => by simp [jsonEquivPairs] at h
  | (k1, v) :: t1, (k2, w) :: t2, hg, h => by
    simp only [jsonEquivPairs] at h
    simp only [GoodJsonPairs] at hg
    obtain ⟨hk, hvw, ht⟩ := h
    subst hk
    simp only [renderPairs, renderJson_equiv v w hg.1 hvw, renderJsonPairs_equiv t1 t2 hg.2 ht]

end

/-! ### Digest shape lemmas -/

/-- A hex digit character is in the validator's alphabet. -/
theorem hexChar_mem (n : Nat) (h : n < 16) : hexChar n ∈ hexDigits := by
  interval_cases n <;> decide

/-- Every character the digest emits is in the validator's alphabet. -/
theorem wordHexChars_mem (w : Nat) : ∀ c ∈ wordHexChars w, c ∈ hexDigits := by
  intro c hc
  simp only [wordHexChars, List.mem_cons, List.not_mem_nil, or_false] at hc
  rcases hc with rfl | rfl | rfl | rfl | rfl | rfl | rfl | rfl <;>
    exact hexChar_mem _ (Nat.mod_lt _ (by norm_num))

/-- The hex digest has exactly 64 characters. -/
theorem compute_sha256_length (msg : List Nat) : (compute_sha256 msg).length = 64 := by
  simp [compute_sha256, String.length, wordHexChars]

/-- The hex digest passes the `validate_sha256` field validator. -/
theorem hexStr64_compute_sha256 (msg : List Nat) : hexStr64 (compute_sha256 msg) = true := by
  have hlen := compute_sha256_length msg
  simp only [hexStr64, hlen, beq_self_eq_true, Bool.true_and]
  show (String.mk _).data.all _ = true
  simp only [List.all_append, List.all_eq_true, Bool.and_eq_true, List.contains,
    List.elem_eq_mem, decide_eq_true_eq]
  exact ⟨⟨⟨⟨⟨⟨⟨wordHexChars_mem _, wordHexChars_mem _⟩, wordHexChars_mem _⟩, wordHexChars_mem _⟩,
    wordHexChars_mem _⟩, wordHexChars_mem _⟩, wordHexChars_mem _⟩, wordHexChars_mem _⟩

/-! ### Engine characterization -/

/-- The MVP rule always returns ACCEPT or REJECT (Boolean form). -/
theorem evaluate_mvp_rule_decision_bool (payload : List (String × Json)) :
    ((evaluate_mvp_rule payload).1 == "ACCEPT" || (evaluate_mvp_rule payload).1 == "REJECT") = true := by
  unfold evaluate_mvp_rule
  rcases dictGet payload "assert" with _ | v
  · rfl
  · rcases v with _ | b | _ | _ | _ | _ <;> try rfl
    rcases b <;> rfl

/-- The MVP rule always returns ACCEPT or REJECT. -/
theorem evaluate_mvp_rule_decision (payload : List (String × Json)) :
    (evaluate_mvp_rule payload).1 = "ACCEPT" ∨ (evaluate_mvp_rule payload).1 = "REJECT" := by
  have h := evaluate_mvp_rule_decision_bool payload
  rcases Bool.or_eq_true_iff.mp h with h | h
  · exact Or.inl (by simpa using h)
  · exact Or.inr (by simpa using h)

/-- The MVP rule always produces at least one reason. -/
theorem evaluate_mvp_rule_reasons (payload : List (String × Json)) :
    (evaluate_mvp_rule payload).2.isEmpty = false := by
  unfold evaluate_mvp_rule
  rcases dictGet payload "assert" with _ | v
  · rfl
  · rcases v with _ | b | _ | _ | _ | _ <;> try rfl
    rcases b <;> rfl

/-- The empty string does not match the time regex. -/
theorem timeFormatOk_ne_empty {s : String} (h : timeFormatOk s = true) : s ≠ "" := by
  intro he
  subst he
  simp [timeFormatOk, takeDigits] at h

/-- Successful pre-invariants under the schema validators, with the exact
check list the source accumulates. -/
theorem check_pre_ok (r : EvaluationRequest) (h : schemaValidB r = true) :
    check_pre_invariants r =
      .ok [("version_check", "PASS"), ("subject_check", "PASS"), ("ruleset_check", "PASS"),
           ("injected_time_check", "PASS"), ("payload_type_check", "PASS"),
           ("no_extra_fields_check", "PASS")] := by
  simp only [schemaValidB, Bool.and_eq_true, beq_iff_eq, Bool.not_eq_true', beq_eq_false_iff_ne,
    ne_eq, decide_eq_true_eq] at h
  obtain ⟨⟨⟨hv, hs, hsl⟩, hr, hrl⟩, ht⟩ := h
  have htne := timeFormatOk_ne_empty ht
  simp [check_pre_invariants, hv, hs, hr, htne, Nat.not_lt.mpr hsl, Nat.not_lt.mpr hrl]

/-- Result construction succeeds when the validators hold. -/
theorem mkEvaluationResult_ok_of (eid isha osha dec : String) (reasons : List String)
    (trace : List TraceStep) (ct : String)
    (hdec : (dec == "ACCEPT" || dec == "REJECT") = true)
    (hre : reasons.isEmpty = false)
    (h1 : hexStr64 isha = true) (h2 : hexStr64 osha = true) :
    mkEvaluationResult eid isha osha "" dec reasons trace ct =
      .ok ⟨eid, isha, osha, "", dec, reasons, trace, ct⟩ := by
  simp [mkEvaluationResult, hdec, hre, h1, h2]

/-- Successful post-invariants, with the exact check list the source
accumulates. -/
theorem check_post_ok (eid isha osha msha dec : String) (reasons : List String)
    (trace : List TraceStep) (ct : String) (isha2 : String)
    (hi : isha.length = 64) (ho : osha.length = 64) (he : eid = isha2.take 16)
    (hre : reasons.isEmpty = false) (hd : dec = "ACCEPT" ∨ dec = "REJECT") :
    check_post_invariants ⟨eid, isha, osha, msha, dec, reasons, trace, ct⟩ isha2 =
      .ok [("input_hash_format", "PASS"), ("output_hash_format", "PASS"),
           ("evaluation_id_derivation", "PASS"), ("reasons_non_empty", "PASS"),
           ("decision_valid", "PASS"), ("trace_deterministic", "PASS"),
           ("canonicalization_stable", "PASS")] := by
  rcases hd with hd | hd <;> simp [check_post_invariants, hi, ho, he, hre, hd]

/-- Reduction of a successful `Except` bind (the `do` steps below). -/
theorem except_bind_ok {e a b : Type} (x : a) (f : a → Except e b) :
    (Except.ok x >>= f) = f x := rfl

/-- Reduction of `pure` in the `Except` monad. -/
theorem except_pure {e a : Type} (x : a) : (pure x : Except e a) = Except.ok x := rfl

/-- Characterization of a successful engine run: for every request the schema
admits, `run_evaluation` returns normally and the returned result carries the
content-derived identifiers. -/
theorem run_evaluation_ok (r : EvaluationRequest) (h : schemaValidB r = true) :
    ∃ res : EvaluationResult,
      run_evaluation r = .ok (res, compute_sha256 (canonicalize_json r.model_dump)) ∧
      res.input_sha256 = compute_sha256 (canonicalize_json r.model_dump) ∧
      res.evaluation_id = (compute_sha256 (canonicalize_json r.model_dump)).take 16 ∧
      res.output_sha256.length = 64 ∧
      res.decision = (evaluate_mvp_rule r.payload).1 ∧
      res.reasons = (evaluate_mvp_rule r.payload).2 ∧
      res.manifest_sha256 = "" ∧
      res.created_time_utc = r.injected_time_utc := by
  unfold run_evaluation
  rw [check_pre_ok r h]
  simp only [except_bind_ok]
  generalize hin : compute_sha256 (canonicalize_json r.model_dump) = isha
  generalize hmvp : evaluate_mvp_rule r.payload = dr
  have hhexin : hexStr64 isha = true := hin ▸ hexStr64_compute_sha256 _
  have hlenin : isha.length = 64 := hin ▸ compute_sha256_length _
  have hdecb : (dr.1 == "ACCEPT" || dr.1 == "REJECT") = true :=
    hmvp ▸ evaluate_mvp_rule_decision_bool r.payload
  have hdecp : dr.1 = "ACCEPT" ∨ dr.1 = "REJECT" := hmvp ▸ evaluate_mvp_rule_decision r.payload
  have hrs : dr.2.isEmpty = false := hmvp ▸ evaluate_mvp_rule_reasons r.payload
  rw [mkEvaluationResult_ok_of _ _ _ _ _ _ _ hdecb hrs hhexin (hexStr64_compute_sha256 _)]
  simp only [except_bind_ok]
  rw [check_post_ok _ _ _ _ _ _ _ _ _ hlenin (compute_sha256_length _) rfl hrs hdecp]
  simp only [except_bind_ok]
  rw [mkEvaluationResult_ok_of _ _ _ _ _ _ _ hdecb hrs hhexin (hexStr64_compute_sha256 _)]
  simp only [except_bind_ok, except_pure]
  refine ⟨_, rfl, ?_, ?_, ?_, ?_, ?_, ?_, ?_⟩
  case refine_1 => with_reducible rfl
  case refine_2 => with_reducible rfl
  case refine_3 => exact compute_sha256_length _
  case refine_4 => with_reducible rfl
  case refine_5 => with_reducible rfl
  case refine_6 => with_reducible rfl
  case refine_7 => with_reducible rfl

/-! ### Shared concrete inputs for witnesses and counterexamples -/

/-- The literal request of the spec's first concrete scenario. -/
def reqAcceptOk : EvaluationRequest :=
  ⟨"v1", "s", "r", [("decision_requested", .str "ACCEPT"), ("justification", .str "ok")],
   "2024-01-01T00:00:00Z"⟩

/-- A committed-looking evaluation id. -/
def evalId9 : String := "0123456789abcdef"

/-- Its evaluation directory. -/
def evalDir9 : String := pathJoin EVALUATIONS_DIR evalId9

/-- A filesystem holding a committed evaluation: the four directory files and
the manifest. -/
def fs9 : FileStore :=
  { dirs := [ARTIFACTS_BASE, EVALUATIONS_DIR, MANIFESTS_DIR, evalDir9],
    files := [
      (pathJoin evalDir9 "input.json", Json.obj []),
      (pathJoin evalDir9 "output.json", Json.obj []),
      (pathJoin evalDir9 "trace.json", Json.arr []),
      (pathJoin evalDir9 "metadata.json", Json.obj []),
      (pathJoin MANIFESTS_DIR (evalId9 ++ ".manifest.json"), Json.obj [])],
    writable := true }

/-- A second committed evaluation id, used by the replay scenarios. -/
def evalId2 : String := "aaaabbbbccccdddd"

/-- Stored output document of that evaluation (field values are irrelevant to
the claims below, which are decided before any of them is compared). -/
def storedOutput2 : Json :=
  Json.obj [("evaluation_id", .str evalId2), ("decision", .str "ACCEPT")]

/-- A filesystem holding that committed evaluation's artifacts. -/
def fs2 : FileStore :=
  { dirs := [ARTIFACTS_BASE, EVALUATIONS_DIR, MANIFESTS_DIR, pathJoin EVALUATIONS_DIR evalId2],
    files := [
      (pathJoin (pathJoin EVALUATIONS_DIR evalId2) "input.json", reqAcceptOk.model_dump),
      (pathJoin (pathJoin EVALUATIONS_DIR evalId2) "output.json", storedOutput2),
      (pathJoin MANIFESTS_DIR (evalId2 ++ ".manifest.json"), Json.obj [])],
    writable := true }

/-- The 64-zero digest of the tamper scenario. -/
def zeros64 : String :=
  "0000000000000000000000000000000000000000000000000000000000000000"

/-- A third committed evaluation id for the tamper scenario. -/
def evalId4 : String := "eeeeffff00001111"

/-- Its output document, with `output_sha256` overwritten by 64 zeros. -/
def tamperedOutput4 : Json :=
  Json.obj [("evaluation_id", .str evalId4), ("output_sha256", .str zeros64),
            ("decision", .str "ACCEPT")]

/-- A filesystem holding the tampered evaluation. -/
def fs4 : FileStore :=
  { dirs := [ARTIFACTS_BASE, EVALUATIONS_DIR, MANIFESTS_DIR, pathJoin EVALUATIONS_DIR evalId4],
    files := [
      (pathJoin (pathJoin EVALUATIONS_DIR evalId4) "input.json", reqAcceptOk.model_dump),
      (pathJoin (pathJoin EVALUATIONS_DIR evalId4) "output.json", tamperedOutput4),
      (pathJoin MANIFESTS_DIR (evalId4 ++ ".manifest.json"), Json.obj [])],
    writable := true }

/-- A result whose id matches the committed directory of `fs9`. -/
def res7 : EvaluationResult :=
  ⟨evalId9, "", "", "", "ACCEPT", ["stored"], [], "2024-01-01T00:00:00Z"⟩

/-- A two-key object. -/
def jsonW1 : Json := .obj [("b", .int 1), ("a", .str "x")]

/-- The same object with its keys in the other order. -/
def jsonW2 : Json := .obj [("a", .str "x"), ("b", .int 1)]

/-- Passing post-invariants force the id/digest-prefix equation. -/
theorem check_post_isOk_eval_id (res : EvaluationResult) (isha : String)
    (h : (check_post_invariants res isha).isOk = true) : res.evaluation_id = isha.take 16 := by
  unfold check_post_invariants at h
  split at h
  · simp [Except.isOk, Except.toBool] at h
  · split at h
    · simp [Except.isOk, Except.toBool] at h
    · split at h
      case isTrue h3 => simp [Except.isOk, Except.toBool] at h
      case isFalse h3 => exact not_not.mp h3

/-! ### The claims -/

/-- C1 (code_bug evidence): on the spec's ACCEPT request, the engine as wired
in `app/core/engine.py` applies the legacy assert rule and returns REJECT
with no `R005` entry, while `evaluate_with_policy` under the default policy —
the behaviour the claim, the spec and the repository's own tests describe —
returns ACCEPT with the `R005` reason. -/
theorem c1_engine_rejects_default_policy_request :
    (run_evaluation reqAcceptOk).toOption.map (fun p => (p.1.decision, p.1.reasons)) =
      some ("REJECT", ["MVP rule: payload.assert key not present"]) ∧
    (evaluate_with_policy default_policy_doc reqAcceptOk.payload).1 = "ACCEPT" ∧
    (evaluate_with_policy default_policy_doc reqAcceptOk.payload).2.1 =
      ["R005:DECISION_RECORDED: Decision 'ACCEPT' recorded with justification"] := by
  refine ⟨?_, by decide, by decide⟩
  obtain ⟨res, heq, _, _, _, hd, hr, _, _⟩ := run_evaluation_ok reqAcceptOk (by decide)
  rw [heq]
  have hred : (Except.ok (res, compute_sha256 (canonicalize_json reqAcceptOk.model_dump)) :
      Except PyError (EvaluationResult × String)).toOption.map
      (fun p => (p.1.decision, p.1.reasons)) = some (res.decision, res.reasons) := rfl
  rw [hred, hd, hr]
  decide

/-- C2 (code_bug evidence): for any stored evaluation whose three artifacts
load and whose saved input parses, `replay_evaluation` raises `TypeError`
(the engine takes no `policy_id` keyword) instead of returning a verdict. -/
theorem c2_replay_crashes_on_stored_artifacts (fs : FileStore) (evaluation_id : String)
    (inJ outJ mJ : Json) (req : EvaluationRequest)
    (hex : evaluation_exists fs evaluation_id = true)
    (hin : load_evaluation_input fs evaluation_id = some inJ)
    (hout : load_evaluation_output fs evaluation_id = some outJ)
    (hman : load_evaluation_manifest fs evaluation_id = some mJ)
    (hparse : requestOfJson inJ = .ok req) :
    replay_evaluation fs evaluation_id =
      .error (.typeError "run_evaluation() got an unexpected keyword argument 'policy_id'") := by
  simp [replay_evaluation, hex, hin, hout, hman, hparse]

/-- Witness for C2 at a concrete committed evaluation. -/
theorem c2_replay_crashes_witness :
    evaluation_exists fs2 evalId2 = true ∧
    replay_evaluation fs2 evalId2 =
      .error (.typeError "run_evaluation() got an unexpected keyword argument 'policy_id'") :=
  ⟨by decide,
   c2_replay_crashes_on_stored_artifacts fs2 evalId2 reqAcceptOk.model_dump storedOutput2
     (Json.obj []) reqAcceptOk (by decide) (by decide) (by decide) (by decide) (by rfl)⟩

/-- C3 (code_bug evidence): the object `run_evaluation` hashes has exactly
six keys and no `policy_id`, for every instantiation of its fields. -/
theorem c3_output_hash_object_lacks_policy_id :
    ∀ (evaluation_id input_sha256 decision created_time_utc : String)
      (reasons : List String) (trace : List TraceStep),
      objKeys (output_for_hash evaluation_id input_sha256 decision reasons trace
          created_time_utc) =
        ["evaluation_id", "input_sha256", "decision", "reasons", "trace",
         "created_time_utc"] ∧
      "policy_id" ∉ objKeys (output_for_hash evaluation_id input_sha256 decision reasons trace
          created_time_utc) := by
  intro eid isha dec ct rs tr
  refine ⟨rfl, ?_⟩
  show "policy_id" ∉ ["evaluation_id", "input_sha256", "decision", "reasons", "trace",
    "created_time_utc"]
  decide

/-- C4 (code_bug evidence): with the stored `output_sha256` overwritten by 64
zeros, replay still raises `TypeError` before any comparison, so no
`ReplayVerdict` (in particular none with a mismatch string) is produced. -/
theorem c4_tampered_output_replay_crashes (fs : FileStore) (evaluation_id : String)
    (inJ outJ mJ : Json) (req : EvaluationRequest)
    (hex : evaluation_exists fs evaluation_id = true)
    (hin : load_evaluation_input fs evaluation_id = some inJ)
    (hout : load_evaluation_output fs evaluation_id = some outJ)
    (_htam : jsonGet outJ "output_sha256" = some (.str zeros64))
    (hman : load_evaluation_manifest fs evaluation_id = some mJ)
    (hparse : requestOfJson inJ = .ok req) :
    replay_evaluation fs evaluation_id =
      .error (.typeError "run_evaluation() got an unexpected keyword argument 'policy_id'") ∧
    ∀ v : Option ReplayResult × Option String, replay_evaluation fs evaluation_id ≠ .ok v := by
  have h : replay_evaluation fs evaluation_id =
      .error (.typeError "run_evaluation() got an unexpected keyword argument 'policy_id'") := by
    simp [replay_evaluation, hex, hin, hout, hman, hparse]
  exact ⟨h, fun v hv => by rw [h] at hv; exact Except.noConfusion hv⟩

/-- Witness for C4 at a concrete tampered evaluation. -/
theorem c4_tampered_output_witness :
    jsonGet tamperedOutput4 "output_sha256" = some (.str zeros64) ∧
    replay_evaluation fs4 evalId4 =
      .error (.typeError "run_evaluation() got an unexpected keyword argument 'policy_id'") :=
  ⟨by decide,
   (c4_tampered_output_replay_crashes fs4 evalId4 reqAcceptOk.model_dump tamperedOutput4
     (Json.obj []) reqAcceptOk (by decide) (by decide) (by decide) (by decide) (by decide)
     (by rfl)).1⟩

/-- C5: the result's `evaluation_id` is the first 16 hex characters of the
input digest, and the post-invariant layer enforces exactly that equation. -/
theorem c5_evaluation_id_is_hash_prefix (r : EvaluationRequest) (h : schemaValidB r = true) :
    (∃ (res : EvaluationResult) (isha : String), run_evaluation r = .ok (res, isha) ∧
      isha = compute_sha256 (canonicalize_json r.model_dump) ∧
      res.evaluation_id = isha.take 16 ∧ res.input_sha256 = isha) ∧
    ∀ (res2 : EvaluationResult) (isha2 : String),
      (check_post_invariants res2 isha2).isOk = true → res2.evaluation_id = isha2.take 16 := by
  constructor
  · obtain ⟨res, heq, hi, he, _, _, _, _, _⟩ := run_evaluation_ok r h
    exact ⟨res, _, heq, rfl, he, hi⟩
  · exact fun res2 isha2 h2 => check_post_isOk_eval_id res2 isha2 h2

/-- Witness for C5 at the concrete ACCEPT request. -/
theorem c5_evaluation_id_witness :
    schemaValidB reqAcceptOk = true ∧
    ((∃ (res : EvaluationResult) (isha : String),
        run_evaluation reqAcceptOk = .ok (res, isha) ∧
        isha = compute_sha256 (canonicalize_json reqAcceptOk.model_dump) ∧
        res.evaluation_id = isha.take 16 ∧ res.input_sha256 = isha) ∧
      ∀ (res2 : EvaluationResult) (isha2 : String),
        (check_post_invariants res2 isha2).isOk = true → res2.evaluation_id = isha2.take 16) :=
  ⟨by decide, c5_evaluation_id_is_hash_prefix reqAcceptOk (by decide)⟩

/-- C6: canonicalization is invariant under structural equality — in
particular under any permutation of object keys at any depth. -/
theorem c6_canonicalize_structural_equality (a b : Json) (hg : GoodJson a)
    (he : jsonEquiv a b) : canonicalize_json a = canonicalize_json b := by
  unfold canonicalize_json
  rw [renderJson_equiv a b hg he]

/-- Witness for C6 on a concrete key permutation. -/
theorem c6_canonicalize_witness :
    GoodJson jsonW1 ∧ jsonEquiv jsonW1 jsonW2 ∧
    canonicalize_json jsonW1 = canonicalize_json jsonW2 := by
  have hg : GoodJson jsonW1 := by
    simp [jsonW1, GoodJson, GoodJsonPairs]
  have he : jsonEquiv jsonW1 jsonW2 := by
    simp only [jsonW1, jsonW2, jsonEquiv]
    exact ⟨[("b", Json.int 1), ("a", Json.str "x")],
      by simp [jsonEquivPairs, jsonEquiv],
      List.Perm.swap ("a", Json.str "x") ("b", Json.int 1) []⟩
  exact ⟨hg, he, c6_canonicalize_structural_equality jsonW1 jsonW2 hg he⟩

/-- C7: a duplicate store attempt fails with the append-only
`InvariantViolation` and leaves the filesystem exactly as it was. -/
theorem c7_duplicate_store_rejected (fs : FileStore) (request : EvaluationRequest)
    (result : EvaluationResult)
    (hroot : fs.isDir ARTIFACTS_BASE = true) (hw : fs.writable = true)
    (hex : fs.pathExists (pathJoin EVALUATIONS_DIR result.evaluation_id) = true) :
    store_evaluation fs request result =
      (fs, .error (.invariantViolation
        ("Evaluation already exists (append-only): " ++
          pathJoin EVALUATIONS_DIR result.evaluation_id))) := by
  simp [store_evaluation, hroot, hw, hex]

/-- Witness for C7 at a concrete committed evaluation. -/
theorem c7_duplicate_store_witness :
    fs9.pathExists (pathJoin EVALUATIONS_DIR res7.evaluation_id) = true ∧
    store_evaluation fs9 reqAcceptOk res7 =
      (fs9, .error (.invariantViolation
        ("Evaluation already exists (append-only): " ++
          pathJoin EVALUATIONS_DIR res7.evaluation_id))) :=
  ⟨by decide, c7_duplicate_store_rejected fs9 reqAcceptOk res7 (by decide) (by decide) (by decide)⟩

/-- C8: the engine is a pure function of the request — two runs on the same
request return identical results, identifiers and digests. -/
theorem c8_engine_deterministic (r1 r2 : EvaluationRequest) (h : r1 = r2) :
    run_evaluation r1 = run_evaluation r2 ∧
    run_pure_evaluation r1 = run_pure_evaluation r2 := by
  subst h
  exact ⟨rfl, rfl⟩

/-- Witness for C8 at the concrete ACCEPT request. -/
theorem c8_engine_deterministic_witness :
    run_evaluation reqAcceptOk = run_evaluation reqAcceptOk ∧
    run_pure_evaluation reqAcceptOk = run_pure_evaluation reqAcceptOk :=
  c8_engine_deterministic reqAcceptOk reqAcceptOk rfl

set_option maxRecDepth 8000 in
/-- C9 (counterexample): on a committed five-file evaluation the bundle's
entry names are not in ascending order — the manifest entry is appended last,
although `<id>/manifest.json` sorts before `<id>/metadata.json`. -/
theorem c9_bundle_entries_not_ascending :
    ((create_evaluation_bundle fs9 evalId9 "2024-01-01T00:00:00Z").map
        (fun es => es.map ZipEntry.name) =
      some ["0123456789abcdef/input.json", "0123456789abcdef/metadata.json",
            "0123456789abcdef/output.json", "0123456789abcdef/trace.json",
            "0123456789abcdef/manifest.json"]) ∧
    ¬ List.Pairwise (fun a b : String => strLe a b = true)
      ["0123456789abcdef/input.json", "0123456789abcdef/metadata.json",
       "0123456789abcdef/output.json", "0123456789abcdef/trace.json",
       "0123456789abcdef/manifest.json"] :=
  ⟨by decide, by decide⟩

/-- C9 (amended): the bundle holds the five entries under `<id>/` — the four
directory files in ascending name order, then the manifest appended last —
every entry with the fixed timestamp, and repeated bundling is identical. -/
theorem c9_bundle_shape (fs : FileStore) (id t : String)
    (ji jmeta jout jtr jman : Json)
    (hdir : fs.isDir (pathJoin EVALUATIONS_DIR id) = true)
    (hls : List.insertionSort (fun a b => strLe a b = true)
        (listdirFiles fs (pathJoin EVALUATIONS_DIR id)) =
      ["input.json", "metadata.json", "output.json", "trace.json"])
    (h1 : fs.fileNamed (pathJoin (pathJoin EVALUATIONS_DIR id) "input.json") = some ji)
    (h2 : fs.fileNamed (pathJoin (pathJoin EVALUATIONS_DIR id) "metadata.json") = some jmeta)
    (h3 : fs.fileNamed (pathJoin (pathJoin EVALUATIONS_DIR id) "output.json") = some jout)
    (h4 : fs.fileNamed (pathJoin (pathJoin EVALUATIONS_DIR id) "trace.json") = some jtr)
    (hm : fs.fileNamed (pathJoin MANIFESTS_DIR (id ++ ".manifest.json")) = some jman) :
    create_evaluation_bundle fs id t = some
      [⟨id ++ "/input.json", fixedZipTime, canonicalize_json ji⟩,
       ⟨id ++ "/metadata.json", fixedZipTime, canonicalize_json jmeta⟩,
       ⟨id ++ "/output.json", fixedZipTime, canonicalize_json jout⟩,
       ⟨id ++ "/trace.json", fixedZipTime, canonicalize_json jtr⟩,
       ⟨id ++ "/manifest.json", fixedZipTime, canonicalize_json jman⟩] ∧
    (∀ es, create_evaluation_bundle fs id t = some es →
      ∀ e ∈ es, e.dateTime = fixedZipTime) ∧
    create_evaluation_bundle fs id t = create_evaluation_bundle fs id t := by
  have hmain : create_evaluation_bundle fs id t = some
      [⟨id ++ "/input.json", fixedZipTime, canonicalize_json ji⟩,
       ⟨id ++ "/metadata.json", fixedZipTime, canonicalize_json jmeta⟩,
       ⟨id ++ "/output.json", fixedZipTime, canonicalize_json jout⟩,
       ⟨id ++ "/trace.json", fixedZipTime, canonicalize_json jtr⟩,
       ⟨id ++ "/manifest.json", fixedZipTime, canonicalize_json jman⟩] := by
    unfold create_evaluation_bundle
    simp [hdir, hls, h1, h2, h3, h4, hm, List.filterMap, String.append_assoc]
  refine ⟨hmain, ?_, rfl⟩
  intro es hes e hmem
  rw [hmain] at hes
  cases hes
  simp only [List.mem_cons, List.not_mem_nil, or_false] at hmem
  rcases hmem with rfl | rfl | rfl | rfl | rfl <;> rfl

set_option maxRecDepth 8000 in
/-- Witness for the amended C9 at the concrete committed evaluation. -/
theorem c9_bundle_shape_witness :
    fs9.isDir (pathJoin EVALUATIONS_DIR evalId9) = true ∧
    create_evaluation_bundle fs9 evalId9 "2024-01-01T00:00:00Z" = some
      [⟨evalId9 ++ "/input.json", fixedZipTime, canonicalize_json (Json.obj [])⟩,
       ⟨evalId9 ++ "/metadata.json", fixedZipTime, canonicalize_json (Json.obj [])⟩,
       ⟨evalId9 ++ "/output.json", fixedZipTime, canonicalize_json (Json.obj [])⟩,
       ⟨evalId9 ++ "/trace.json", fixedZipTime, canonicalize_json (Json.arr [])⟩,
       ⟨evalId9 ++ "/manifest.json", fixedZipTime, canonicalize_json (Json.obj [])⟩] :=
  ⟨by decide,
   (c9_bundle_shape fs9 evalId9 "2024-01-01T00:00:00Z" (Json.obj []) (Json.obj [])
     (Json.obj []) (Json.arr []) (Json.obj []) (by decide) (by decide) (by decide) (by decide)
     (by decide) (by decide) (by decide)).1⟩

/-- C10: for every schema-valid request the engine returns normally — no
invariant raise and no validator failure is reachable. -/
theorem c10_run_evaluation_total (r : EvaluationRequest) (h : schemaValidB r = true) :
    (run_evaluation r).isOk = true := by
  obtain ⟨res, heq, _, _, _, _, _, _, _⟩ := run_evaluation_ok r h
  rw [heq]
  rfl

/-- Witness for C10 at the concrete ACCEPT request. -/
theorem c10_run_evaluation_total_witness :
    schemaValidB reqAcceptOk = true ∧ (run_evaluation reqAcceptOk).isOk = true :=
  ⟨by decide, c10_run_evaluation_total reqAcceptOk (by decide)⟩
